import Mathlib

/-!
Verification of the XII-OS Deep Research page (`deep_research_openai.py`).

The script is a single Streamlit page: it reads an API key from the
environment (warning if absent), renders a query text area plus a set of
cosmetic option widgets, and on the "Start Research" button click either
warns (empty query) or stores a fixed mock `ResearchResult` in session
state, renders it, and offers a JSON download.

We embed the data model, the click handler (lines 49-93 of the source),
the JSON serialization used by the export, and `datetime.isoformat`,
and prove the spec's claims about them.
-/

/-- One research finding record, as in the literal dictionaries at
lines 61-72 of the source. `relevance` is a numeric score; the source
uses the float literals 0.95 and 0.82, which we model exactly as
rationals. -/
structure Finding where
  title : String
  content : String
  relevance : ℚ
  source : String
deriving Repr, DecidableEq

/-- The result envelope stored in `st.session_state.results`
(lines 56-74). -/
structure ResearchResult where
  query : String
  model : String
  timestamp : String
  findings : List Finding
deriving Repr, DecidableEq

/-- First fixed finding literal (source lines 61-66). -/
def finding1 : Finding :=
  { title := "Tennis Tiebreaker Regulations"
    content := "The Big 12 Conference employs a specific tiebreaker system in tennis matches. When two players are tied at 6-6 in a set, a tiebreaker game is played to determine the winner of the set. The first player to reach at least 7 points with a margin of 2 points wins the tiebreaker."
    relevance := 95 / 100
    source := "Big 12 Tennis Rulebook" }

/-- Second fixed finding literal (source lines 67-72). -/
def finding2 : Finding :=
  { title := "Match Statistics Analysis"
    content := "According to recent match statistics, tiebreakers occur in approximately 22% of Big 12 tennis sets. Teams with higher first-serve percentages tend to win 67% of tiebreakers, suggesting the importance of serve performance in these critical moments."
    relevance := 82 / 100
    source := "XII-OS Analytics Database" }

/-- The fixed `findings` list of every produced result (lines 60-73). -/
def fixedFindings : List Finding := [finding1, finding2]

/-- A Python `datetime` value, the fields used by `isoformat`. -/
structure DateTime where
  year : Nat
  month : Nat
  day : Nat
  hour : Nat
  minute : Nat
  second : Nat
  microsecond : Nat
deriving Repr, DecidableEq

/-- The value ranges Python's `datetime` guarantees for its fields
(`MINYEAR = 1` to `MAXYEAR = 9999`, and so on). `datetime.now()` always
satisfies this. -/
def DateTime.Valid (d : DateTime) : Prop :=
  1 ≤ d.year ∧ d.year ≤ 9999 ∧ 1 ≤ d.month ∧ d.month ≤ 12 ∧
  1 ≤ d.day ∧ d.day ≤ 31 ∧ d.hour ≤ 23 ∧ d.minute ≤ 59 ∧
  d.second ≤ 59 ∧ d.microsecond ≤ 999999

instance (d : DateTime) : Decidable d.Valid := by
  unfold DateTime.Valid; infer_instance

/-- The decimal digits of `n`, zero-padded on the left to width `w`
(Python's `%04d`-style formatting used inside `isoformat`; faithful for
`n < 10 ^ w`, which `DateTime.Valid` guarantees for every use). -/
def natDigitsPadded : Nat → Nat → List Char
  | 0, _ => []
  | w + 1, n => natDigitsPadded w (n / 10) ++ [Nat.digitChar (n % 10)]

/-- `datetime.isoformat()` as a character list:
`YYYY-MM-DDTHH:MM:SS` followed by `.ffffff` exactly when the
microsecond field is nonzero. -/
def isoformatList (d : DateTime) : List Char :=
  natDigitsPadded 4 d.year ++ ['-'] ++ natDigitsPadded 2 d.month ++ ['-'] ++
  natDigitsPadded 2 d.day ++ ['T'] ++ natDigitsPadded 2 d.hour ++ [':'] ++
  natDigitsPadded 2 d.minute ++ [':'] ++ natDigitsPadded 2 d.second ++
  (if d.microsecond = 0 then [] else ['.'] ++ natDigitsPadded 6 d.microsecond)

/-- `datetime.isoformat()` (source line 59). -/
def isoformat (d : DateTime) : String := String.mk (isoformatList d)

/-- Consume exactly `w` decimal-digit characters from the front of a
character list, returning the rest. -/
def expectDigits : Nat → List Char → Option (List Char)
  | 0, cs => some cs
  | _ + 1, [] => none
  | w + 1, c :: cs => if c.isDigit then expectDigits w cs else none

/-- Consume one expected literal character. -/
def expectLit (c : Char) : List Char → Option (List Char)
  | [] => none
  | d :: cs => if d = c then some cs else none

/-- Accept the optional fractional-seconds tail of an ISO-8601
timestamp: either nothing, or a dot followed by six digits. -/
def isoFracTail (cs : List Char) : Bool :=
  match cs with
  | [] => true
  | '.' :: rest => expectDigits 6 rest = some []
  | _ => false

/-- Checker for the ISO-8601 timestamp shapes `datetime.isoformat`
produces: `YYYY-MM-DDTHH:MM:SS[.ffffff]`. Written as an independent
parser over the character list, not in terms of `isoformat`. -/
def isIso8601 (s : String) : Bool :=
  match (((((((((( (expectDigits 4 s.toList).bind
    (expectLit '-')).bind (expectDigits 2)).bind
    (expectLit '-')).bind (expectDigits 2)).bind
    (expectLit 'T')).bind (expectDigits 2)).bind
    (expectLit ':')).bind (expectDigits 2)).bind
    (expectLit ':')).bind (expectDigits 2)) with
  | none => false
  | some rest => isoFracTail rest

/-- JSON values, for the `json.dumps` export (source line 87). Numbers
are modelled as rationals (every float literal in the source is a
finite decimal). -/
inductive Json where
  | null : Json
  | bool (b : Bool) : Json
  | num (q : ℚ) : Json
  | str (s : String) : Json
  | arr (xs : List Json) : Json
  | obj (kvs : List (String × Json)) : Json
deriving Repr

/-- The JSON object a `Finding` dictionary denotes (key order as in the
source literal). -/
def Finding.toJson (f : Finding) : Json :=
  .obj [("title", .str f.title), ("content", .str f.content),
        ("relevance", .num f.relevance), ("source", .str f.source)]

/-- The JSON object the `st.session_state.results` dictionary denotes
(key order as in the source literal, lines 56-74). -/
def ResearchResult.toJson (r : ResearchResult) : Json :=
  .obj [("query", .str r.query), ("model", .str r.model),
        ("timestamp", .str r.timestamp),
        ("findings", .arr (r.findings.map Finding.toJson))]

/-- Read a `Finding` back from its JSON object (the shape
`json.loads` yields on the exported file). -/
def Finding.fromJson : Json → Option Finding
  | .obj [("title", .str t), ("content", .str c),
          ("relevance", .num r), ("source", .str s)] =>
    some { title := t, content := c, relevance := r, source := s }
  | _ => none

/-- Read every element of a JSON array back as a `Finding`; `none` if
any element fails. -/
def findingsFromJson : List Json → Option (List Finding)
  | [] => some []
  | j :: js =>
    match Finding.fromJson j, findingsFromJson js with
    | some f, some fs => some (f :: fs)
    | _, _ => none

/-- Read a `ResearchResult` back from its JSON object. -/
def ResearchResult.fromJson : Json → Option ResearchResult
  | .obj [("query", .str q), ("model", .str m), ("timestamp", .str ts),
          ("findings", .arr fs)] =>
    match findingsFromJson fs with
    | some fl => some { query := q, model := m, timestamp := ts, findings := fl }
    | none => none
  | _ => none

/-- Top-level keys of a JSON object. -/
def Json.topKeys : Json → Option (List String)
  | .obj kvs => some (kvs.map Prod.fst)
  | _ => none

/-- A run of `n` space characters (the indentation `json.dumps` emits). -/
def spaces (n : Nat) : String := String.mk (List.replicate n ' ')

/-- Four lowercase hex digits of `n % 65536` (for `\uXXXX` escapes). -/
def hex4 (n : Nat) : List Char :=
  [Nat.digitChar (n / 4096 % 16), Nat.digitChar (n / 256 % 16),
   Nat.digitChar (n / 16 % 16), Nat.digitChar (n % 16)]

/-- How `json.dumps` (default `ensure_ascii=True`) escapes one
character inside a string literal. -/
def escapeChar (c : Char) : List Char :=
  if c = '"' then ['\\', '"']
  else if c = '\\' then ['\\', '\\']
  else if c = '\n' then ['\\', 'n']
  else if c = '\t' then ['\\', 't']
  else if c = '\r' then ['\\', 'r']
  else if c = '\x08' then ['\\', 'b']
  else if c = '\x0c' then ['\\', 'f']
  else if c.toNat < 32 then '\\' :: 'u' :: hex4 c.toNat
  else if c.toNat < 128 then [c]
  else if c.toNat < 65536 then '\\' :: 'u' :: hex4 c.toNat
  else
    let v := c.toNat - 65536
    '\\' :: 'u' :: hex4 (55296 + v / 1024) ++ '\\' :: 'u' :: hex4 (56320 + v % 1024)

/-- A JSON string literal: quotes around the escaped characters. -/
def renderString (s : String) : String :=
  String.mk ('"' :: (s.toList.map escapeChar).flatten ++ ['"'])

/-- Fractional decimal digits of a rational in `[0, 1)`, up to `fuel`
digits, stopping at remainder zero (enough to reproduce Python's
`repr` on the finite decimals the source contains). -/
def fracDigitsAux : Nat → ℚ → List Char
  | 0, _ => []
  | fuel + 1, r =>
    if r = 0 then []
    else
      let r10 := r * 10
      let d := r10.num / r10.den
      Nat.digitChar d.toNat :: fracDigitsAux fuel (r10 - (d : ℚ))

/-- Python `float` `repr` of a finite-decimal rational, as `json.dumps`
prints it (`0.95`, `0.82`, `1.0`, ...). -/
def decimalRepr (q : ℚ) : String :=
  let sign := if q < 0 then "-" else ""
  let a := |q|
  let ip := (a.num / a.den).toNat
  let frac := fracDigitsAux 17 (a - (ip : ℚ))
  sign ++ toString ip ++ "." ++ (if frac = [] then "0" else String.mk frac)

mutual

/-- `json.dumps(·, indent=ind)` at nesting level `lvl`: objects and
arrays put every item on its own line, indented `(lvl+1)*ind` spaces,
with separators `","` and `": "`; empty containers stay on one line. -/
def renderJson (ind lvl : Nat) : Json → String
  | .null => "null"
  | .bool true => "true"
  | .bool false => "false"
  | .num q => decimalRepr q
  | .str s => renderString s
  | .arr [] => "[]"
  | .arr (x :: xs) =>
    "[\n" ++ String.intercalate ",\n" (renderArrItems ind lvl (x :: xs)) ++
      "\n" ++ spaces (lvl * ind) ++ "]"
  | .obj [] => "\x7b\x7d"
  | .obj (kv :: kvs) =>
    "\x7b\n" ++ String.intercalate ",\n" (renderObjItems ind lvl (kv :: kvs)) ++
      "\n" ++ spaces (lvl * ind) ++ "\x7d"

/-- The rendered items of a JSON array, one string per element. -/
def renderArrItems (ind lvl : Nat) : List Json → List String
  | [] => []
  | x :: xs =>
    (spaces ((lvl + 1) * ind) ++ renderJson ind (lvl + 1) x) ::
      renderArrItems ind lvl xs

/-- The rendered items of a JSON object, one `"key": value` string per
entry. -/
def renderObjItems (ind lvl : Nat) : List (String × Json) → List String
  | [] => []
  | (k, v) :: kvs =>
    (spaces ((lvl + 1) * ind) ++ renderString k ++ ": " ++
        renderJson ind (lvl + 1) v) ::
      renderObjItems ind lvl kvs

end

/-- The sidebar and Advanced Options widget values (source lines 25-27
and 38-47). Every one of these is collected but, apart from `model`
being copied into the result, never consumed by the handler. -/
structure SubmitCtx where
  model : String
  temperature : ℚ
  max_tokens : Nat
  search_depth : String
  include_citations : Bool
  domains : List String
  date_range : List DateTime
deriving Repr, DecidableEq

/-- An inline message the page surfaces (`st.warning`, `st.success`,
`st.error`). -/
inductive Message where
  | warning (s : String) : Message
  | success (s : String) : Message
  | error (s : String) : Message
deriving Repr, DecidableEq

/-- The artifact `st.download_button` offers (source lines 86-89). -/
structure DownloadArtifact where
  fileName : String
  mime : String
  data : String
deriving Repr, DecidableEq

/-- What one click of "Start Research" leaves behind: the inline
messages shown, the session-state result slot, and the download offer
(if any). -/
structure HandlerResult where
  messages : List Message
  state : Option ResearchResult
  download : Option DownloadArtifact
deriving Repr, DecidableEq

/-- Where inside the `try` block an injected exception is raised:
either while building the result dictionary (before the session-state
assignment lands) or while rendering/offering the download (after it
landed). -/
inductive FailPoint where
  | construct : FailPoint
  | render : FailPoint
deriving Repr, DecidableEq

/-- The `ResearchResult` the handler constructs for a non-empty query
(source lines 56-74). -/
def buildResult (query : String) (ctx : SubmitCtx) (now : DateTime) :
    ResearchResult :=
  { query := query
    model := ctx.model
    timestamp := isoformat now
    findings := fixedFindings }

/-- The JSON export offer (source lines 86-89): fixed file name, fixed
mime type, `json.dumps(results, indent=2)` as data. -/
def exportArtifact (r : ResearchResult) : DownloadArtifact :=
  { fileName := "research_results.json"
    mime := "application/json"
    data := renderJson 2 0 r.toJson }

/-- The `try` block of the handler (source lines 55-91), with an
optional injected exception. An `Except.error` carries the exception
text together with the messages already shown and the session state as
it stands at the raise point; `Except.ok` carries the normal outcome. -/
def tryBody (query : String) (ctx : SubmitCtx) (now : DateTime)
    (exc : Option (FailPoint × String)) (st : Option ResearchResult) :
    Except (String × List Message × Option ResearchResult)
      (List Message × Option ResearchResult × Option DownloadArtifact) :=
  match exc with
  | some (.construct, e) => .error (e, [], st)
  | some (.render, e) =>
    .error (e, [Message.success "Research complete!"],
      some (buildResult query ctx now))
  | none =>
    let r := buildResult query ctx now
    .ok ([Message.success "Research complete!"], some r,
      some (exportArtifact r))

/-- The "Start Research" click handler (source lines 49-93): warn and
write nothing when the query is empty (Python truthiness of `str`),
otherwise run the `try` block; the `except Exception` clause turns any
raised exception into an inline error message and keeps going. -/
def handleClick (query : String) (ctx : SubmitCtx) (now : DateTime)
    (exc : Option (FailPoint × String)) (st : Option ResearchResult) :
    HandlerResult :=
  if query = "" then
    { messages := [Message.warning "Please enter a research query."]
      state := st
      download := none }
  else
    match tryBody query ctx now exc st with
    | .ok (msgs, newSt, dl) =>
      { messages := msgs, state := newSt, download := dl }
    | .error (e, msgs, stAtRaise) =>
      { messages := msgs ++ [Message.error ("Error during research: " ++ e)]
        state := stAtRaise
        download := none }

/-- One in-page user action during a session. -/
inductive PageAction where
  | clickStart (query : String) (ctx : SubmitCtx) (now : DateTime)
      (exc : Option (FailPoint × String)) : PageAction
  | clickDownload : PageAction
  | changeWidget : PageAction
deriving Repr

/-- Effect of one in-page action on the session-state result slot.
Clicking the download button only fires `st.balloons()`; moving a
widget re-runs the script without entering the button branch; neither
touches `st.session_state.results`. -/
def pageStep (a : PageAction) (st : Option ResearchResult) :
    Option ResearchResult :=
  match a with
  | .clickStart q ctx now exc => (handleClick q ctx now exc st).state
  | .clickDownload => st
  | .changeWidget => st

/-- The startup key check (source lines 11-16): `os.environ.get` with a
warning when the key is missing or falsy (absent or empty string). -/
def startupMessages (env : Option String) : List Message :=
  match env with
  | none => [Message.warning "OpenAI API key not found. Some features may be limited."]
  | some k =>
    if k = "" then
      [Message.warning "OpenAI API key not found. Some features may be limited."]
    else []

/-- One full script run: startup messages (which may mention the key)
followed by the effect of the user action. The key value is not an
argument of `handleClick` or `pageStep`, mirroring that no code after
line 16 reads it. -/
def appStep (env : Option String) (a : PageAction) (st : Option ResearchResult) :
    List Message × Option ResearchResult × Option DownloadArtifact :=
  match a with
  | .clickStart q ctx now exc =>
    let hr := handleClick q ctx now exc st
    (startupMessages env ++ hr.messages, hr.state, hr.download)
  | _ => (startupMessages env, pageStep a st, none)

/-- A concrete widget context for witnesses: the defaults the page
renders with, but with `model` as in the C8 scenario. -/
def ctx0 : SubmitCtx :=
  { model := "gpt-4o"
    temperature := 7 / 10
    max_tokens := 1500
    search_depth := "Standard"
    include_citations := true
    domains := []
    date_range := [⟨2000, 1, 1, 0, 0, 0, 0⟩, ⟨2025, 4, 1, 12, 0, 0, 0⟩] }

/-- A concrete submission time for witnesses. -/
def now0 : DateTime := ⟨2025, 4, 1, 12, 30, 45, 123456⟩

/-- A second concrete widget context, differing from `ctx0` in every
cosmetic control, for the noninterference witness. -/
def ctx1 : SubmitCtx :=
  { model := "gpt-3.5-turbo"
    temperature := 0
    max_tokens := 4000
    search_depth := "Comprehensive"
    include_citations := false
    domains := ["Tennis", "Rules"]
    date_range := [] }

/-! ## Helper lemmas -/

theorem finding_roundTrip (f : Finding) :
    Finding.fromJson f.toJson = some f := by
  cases f; rfl

theorem findingsFromJson_map_toJson (l : List Finding) :
    findingsFromJson (l.map Finding.toJson) = some l := by
  induction l with
  | nil => rfl
  | cons f t ih => simp [findingsFromJson, finding_roundTrip, ih]

theorem researchResult_roundTrip (r : ResearchResult) :
    ResearchResult.fromJson r.toJson = some r := by
  cases r with
  | mk q m ts fs =>
    simp [ResearchResult.toJson, ResearchResult.fromJson,
      findingsFromJson_map_toJson]

theorem digitChar_isDigit : ∀ d : Nat, d < 10 → (Nat.digitChar d).isDigit = true := by
  decide

theorem natDigitsPadded_length (w : Nat) : ∀ n, (natDigitsPadded w n).length = w := by
  induction w with
  | zero => intro n; rfl
  | succ k ih => intro n; simp [natDigitsPadded, ih]

theorem natDigitsPadded_isDigit (w : Nat) :
    ∀ n c, c ∈ natDigitsPadded w n → c.isDigit = true := by
  induction w with
  | zero => intro n c hc; simp [natDigitsPadded] at hc
  | succ k ih =>
    intro n c hc
    simp only [natDigitsPadded, List.mem_append, List.mem_singleton] at hc
    rcases hc with hc | hc
    · exact ih _ _ hc
    · subst hc; exact digitChar_isDigit _ (Nat.mod_lt _ (by decide))

theorem expectDigits_append (cs : List Char)
    (h : ∀ c ∈ cs, c.isDigit = true) (rest : List Char) :
    expectDigits cs.length (cs ++ rest) = some rest := by
  induction cs with
  | nil => rfl
  | cons c t ih =>
    have hc : c.isDigit = true := h c (by simp)
    simp [expectDigits, hc, ih (fun x hx => h x (by simp [hx]))]

theorem expectDigits_pad (w n : Nat) (rest : List Char) :
    expectDigits w (natDigitsPadded w n ++ rest) = some rest := by
  have h := expectDigits_append (natDigitsPadded w n)
    (natDigitsPadded_isDigit w n) rest
  rwa [natDigitsPadded_length] at h

theorem expectDigits_pad_nil (w n : Nat) :
    expectDigits w (natDigitsPadded w n) = some [] := by
  have h := expectDigits_pad w n []
  rwa [List.append_nil] at h

theorem isoformat_isIso8601 (d : DateTime) : isIso8601 (isoformat d) = true := by
  by_cases hm : d.microsecond = 0 <;>
    simp [isIso8601, isoformat, isoformatList, hm, String.toList,
      List.append_assoc, expectDigits_pad, expectDigits_pad_nil,
      expectLit, Option.bind, isoFracTail]

/-! ## Claims -/

/-- C1, counterexample: the claim says every whitespace-only query is
blocked with a warning and no stored result, but the guard on source
line 50 is `if not query:`, which only fires for the empty string.
The single-space query `" "` is whitespace-only, yet the handler stores
a `ResearchResult` and shows no warning. -/
theorem claim_C1_counterexample :
    " ".toList.all Char.isWhitespace = true ∧
    (handleClick " " ctx0 now0 none none).state =
      some (buildResult " " ctx0 now0) ∧
    Message.warning "Please enter a research query." ∉
      (handleClick " " ctx0 now0 none none).messages := by
  refine ⟨by decide, rfl, ?_⟩
  have hmsg : (handleClick " " ctx0 now0 none none).messages =
      [Message.success "Research complete!"] := rfl
  rw [hmsg]
  simp

/-- C1, amended: only the *empty* query string is blocked — submission
with `""` produces exactly the warning, stores nothing and offers no
download; every non-empty query (whitespace-only included) is treated
as valid and produces a `ResearchResult`. -/
theorem claim_C1_empty_only_blocked :
    (∀ (ctx : SubmitCtx) (now : DateTime) (exc : Option (FailPoint × String))
        (st : Option ResearchResult),
      handleClick "" ctx now exc st =
        { messages := [Message.warning "Please enter a research query."]
          state := st
          download := none }) ∧
    (∀ (q : String) (ctx : SubmitCtx) (now : DateTime)
        (st : Option ResearchResult), q ≠ "" →
      (handleClick q ctx now none st).state = some (buildResult q ctx now)) := by
  constructor
  · intro ctx now exc st; rfl
  · intro q ctx now st hq; simp [handleClick, tryBody, hq]

/-- C1 witness: the amended theorem applied to the whitespace-only
query `" "`. -/
theorem claim_C1_witness :
    (handleClick " " ctx0 now0 none none).state =
      some (buildResult " " ctx0 now0) :=
  claim_C1_empty_only_blocked.2 " " ctx0 now0 none (by decide)

/-- C2: every non-empty query yields a stored `ResearchResult` whose
`findings` are exactly the two fixed literals, in order, and whose
`query` field is the input string unchanged. -/
theorem claim_C2_nonempty_submit (q : String) (ctx : SubmitCtx)
    (now : DateTime) (st : Option ResearchResult) (hq : q ≠ "") :
    (handleClick q ctx now none st).state = some (buildResult q ctx now) ∧
    (buildResult q ctx now).findings = [finding1, finding2] ∧
    (buildResult q ctx now).findings.length = 2 ∧
    (buildResult q ctx now).query = q := by
  refine ⟨?_, rfl, rfl, rfl⟩
  simp [handleClick, tryBody, hq]

/-- C2 witness at the concrete query `"x"`. -/
theorem claim_C2_witness :
    (handleClick "x" ctx0 now0 none none).state =
      some (buildResult "x" ctx0 now0) :=
  (claim_C2_nonempty_submit "x" ctx0 now0 none (by decide)).1

/-- C3: two submissions with the same query and timestamp but arbitrary
different widget contexts (model, temperature, max tokens, search
depth, citations flag, domains, date range) produce results with
identical `findings`. -/
theorem claim_C3_cosmetic_noninterference (q : String)
    (ctxA ctxB : SubmitCtx) (now : DateTime)
    (stA stB : Option ResearchResult) (rA rB : ResearchResult)
    (hq : q ≠ "")
    (hA : (handleClick q ctxA now none stA).state = some rA)
    (hB : (handleClick q ctxB now none stB).state = some rB) :
    rA.findings = rB.findings := by
  simp [handleClick, tryBody, hq] at hA hB
  rw [← hA, ← hB]
  simp [buildResult]

/-- C3 witness: `ctx0` and `ctx1` differ in every cosmetic control. -/
theorem claim_C3_witness :
    (buildResult "x" ctx0 now0).findings =
      (buildResult "x" ctx1 now0).findings :=
  claim_C3_cosmetic_noninterference "x" ctx0 ctx1 now0 none none
    (buildResult "x" ctx0 now0) (buildResult "x" ctx1 now0)
    (by decide) rfl rfl

/-- C4: serializing a submit-produced `ResearchResult` to JSON and
parsing it back yields the same structure. -/
theorem claim_C4_round_trip (q : String) (ctx : SubmitCtx)
    (now : DateTime) (st : Option ResearchResult) (r : ResearchResult)
    (_hq : q ≠ "")
    (_h : (handleClick q ctx now none st).state = some r) :
    ResearchResult.fromJson r.toJson = some r :=
  researchResult_roundTrip r

/-- C4 witness at the concrete query `"x"`. -/
theorem claim_C4_witness :
    ResearchResult.fromJson (buildResult "x" ctx0 now0).toJson =
      some (buildResult "x" ctx0 now0) :=
  claim_C4_round_trip "x" ctx0 now0 none (buildResult "x" ctx0 now0)
    (by decide) rfl

/-- C5: an exception injected anywhere in the `try` block of a
non-empty-query submission is caught: the handler still returns a page
(an inline error message is shown, no download is offered), the
process does not die. An exception before the session-state assignment
leaves the stored result untouched; one after it leaves the fresh
result stored. -/
theorem claim_C5_exception_caught (q : String) (ctx : SubmitCtx)
    (now : DateTime) (st : Option ResearchResult) (fp : FailPoint)
    (e : String) (hq : q ≠ "") :
    Message.error ("Error during research: " ++ e) ∈
      (handleClick q ctx now (some (fp, e)) st).messages ∧
    (handleClick q ctx now (some (fp, e)) st).download = none ∧
    (fp = FailPoint.construct →
      (handleClick q ctx now (some (fp, e)) st).state = st) ∧
    (fp = FailPoint.render →
      (handleClick q ctx now (some (fp, e)) st).state =
        some (buildResult q ctx now)) := by
  cases fp <;> simp [handleClick, tryBody, hq]

/-- C5 witness: a concrete injected exception. -/
theorem claim_C5_witness :
    Message.error ("Error during research: " ++ "boom") ∈
      (handleClick "x" ctx0 now0 (some (FailPoint.construct, "boom"))
        none).messages :=
  (claim_C5_exception_caught "x" ctx0 now0 none FailPoint.construct "boom"
    (by decide)).1

/-- C6: as a two-state machine over the session-state slot
(`none` = Idle, `some _` = ResultShown): a valid submit always lands in
ResultShown with the fresh result (covering Idle→ResultShown and the
replacing re-submit), no single in-page action leaves ResultShown, and
hence no sequence of in-page actions ever returns to Idle. -/
theorem claim_C6_state_machine :
    (∀ (q : String) (ctx : SubmitCtx) (now : DateTime)
        (st : Option ResearchResult), q ≠ "" →
      pageStep (.clickStart q ctx now none) st =
        some (buildResult q ctx now)) ∧
    (∀ (a : PageAction) (st : Option ResearchResult),
      st ≠ none → pageStep a st ≠ none) ∧
    (∀ (acts : List PageAction) (st : Option ResearchResult), st ≠ none →
      acts.foldl (fun s a => pageStep a s) st ≠ none) := by
  have hstep : ∀ (a : PageAction) (st : Option ResearchResult),
      st ≠ none → pageStep a st ≠ none := by
    intro a st hst
    cases a with
    | clickStart q ctx now exc =>
      by_cases hq : q = ""
      · simpa [pageStep, handleClick, hq] using hst
      · cases exc with
        | none => simp [pageStep, handleClick, tryBody, hq]
        | some pe =>
          obtain ⟨fp, e⟩ := pe
          cases fp with
          | construct => simpa [pageStep, handleClick, tryBody, hq] using hst
          | render => simp [pageStep, handleClick, tryBody, hq]
    | clickDownload => simpa [pageStep] using hst
    | changeWidget => simpa [pageStep] using hst
  refine ⟨?_, hstep, ?_⟩
  · intro q ctx now st hq
    simp [pageStep, handleClick, tryBody, hq]
  · intro acts
    induction acts with
    | nil => intro st hst; simpa using hst
    | cons a t ih => intro st hst; exact ih _ (hstep a st hst)

/-- C6 witness: a concrete Idle→ResultShown transition. -/
theorem claim_C6_witness :
    pageStep (.clickStart "x" ctx0 now0 none) none =
      some (buildResult "x" ctx0 now0) :=
  claim_C6_state_machine.1 "x" ctx0 now0 none (by decide)

/-- C7: whenever a result is stored by a successful submission, the
download offer has file name `research_results.json`, mime type
`application/json`, data equal to the result rendered as JSON with
2-space indentation, top-level keys query/model/timestamp/findings,
and an ISO-8601 timestamp value. -/
theorem claim_C7_export_shape (q : String) (ctx : SubmitCtx)
    (now : DateTime) (st : Option ResearchResult) (r : ResearchResult)
    (hq : q ≠ "") (_hv : now.Valid)
    (h : (handleClick q ctx now none st).state = some r) :
    (handleClick q ctx now none st).download = some (exportArtifact r) ∧
    (exportArtifact r).fileName = "research_results.json" ∧
    (exportArtifact r).mime = "application/json" ∧
    (exportArtifact r).data = renderJson 2 0 r.toJson ∧
    r.toJson.topKeys = some ["query", "model", "timestamp", "findings"] ∧
    isIso8601 r.timestamp = true := by
  have hr : r = buildResult q ctx now := by
    simp [handleClick, tryBody, hq] at h
    exact h.symm
  subst hr
  refine ⟨?_, rfl, rfl, rfl, rfl, isoformat_isIso8601 now⟩
  simp [handleClick, tryBody, hq]

/-- C7 witness at a concrete submission. -/
theorem claim_C7_witness :
    (handleClick "x" ctx0 now0 none none).download =
      some (exportArtifact (buildResult "x" ctx0 now0)) :=
  (claim_C7_export_shape "x" ctx0 now0 none (buildResult "x" ctx0 now0)
    (by decide) (by decide) rfl).1

/-- C8: the scenario query `"tiebreaker rules"` with model `"gpt-4o"`
(and any values of the remaining widgets) yields a result containing a
finding titled "Tennis Tiebreaker Regulations" with relevance 0.95
(= 95/100). -/
theorem claim_C8_scenario (temperature : ℚ) (mt : Nat) (sd : String)
    (ic : Bool) (dom : List String) (dr : List DateTime) (now : DateTime)
    (st : Option ResearchResult) (r : ResearchResult)
    (h : (handleClick "tiebreaker rules"
        ⟨"gpt-4o", temperature, mt, sd, ic, dom, dr⟩ now none st).state =
      some r) :
    ∃ f ∈ r.findings, f.title = "Tennis Tiebreaker Regulations" ∧
      f.relevance = 95 / 100 := by
  have hr : r = buildResult "tiebreaker rules"
      ⟨"gpt-4o", temperature, mt, sd, ic, dom, dr⟩ now := by
    simp [handleClick, tryBody] at h
    exact h.symm
  subst hr
  exact ⟨finding1, by simp [buildResult, fixedFindings], rfl, rfl⟩

/-- C8 witness at concrete widget values. -/
theorem claim_C8_witness :
    ∃ f ∈ (buildResult "tiebreaker rules" ctx0 now0).findings,
      f.title = "Tennis Tiebreaker Regulations" ∧
      f.relevance = 95 / 100 :=
  claim_C8_scenario (7 / 10) 1500 "Standard" true [] ctx0.date_range now0
    none (buildResult "tiebreaker rules" ctx0 now0) rfl

/-- C9: a missing API key produces exactly the non-fatal startup
warning, and the key value never influences the session state or the
download of any subsequent action (it is not an input of the handler at
all). -/
theorem claim_C9_key_unused :
    startupMessages none =
      [Message.warning "OpenAI API key not found. Some features may be limited."] ∧
    (∀ (env1 env2 : Option String) (a : PageAction)
        (st : Option ResearchResult),
      (appStep env1 a st).2 = (appStep env2 a st).2) := by
  refine ⟨rfl, ?_⟩
  intro env1 env2 a st
  cases a <;> rfl

/-- C10: an empty-query click is a frame: whatever the stored result
slot held before — including a result from a prior valid submission —
it holds afterwards, unchanged. -/
theorem claim_C10_empty_query_frame (ctx : SubmitCtx) (now : DateTime)
    (exc : Option (FailPoint × String)) (st : Option ResearchResult) :
    pageStep (.clickStart "" ctx now exc) st = st := by
  simp [pageStep, handleClick]
